import Mathlib

/-!
Shallow embedding of the monero-multisig CLI tool.

The embedding follows the Rust sources: `src/transaction.rs` (transfer,
signing, submission, amount formatting, address validation),
`src/config.rs` (the `Network` enum), `src/error.rs` (error messages) and
`src/main.rs` (the per-subcommand control flow).  The wallet-RPC Gateway is an
external collaborator: each embedded invocation takes the Gateway outcome as
an explicit `Except String` parameter.  The `wallet` module (`wallet.rs`) is
not among the sources; the data types it declares are modelled from the spec
(sections 3 and 4) and from their uses in `main.rs`, as marked on each
definition.
-/

namespace MoneroMultisig

/-- The Monero network variant (config.rs, `Network`). -/
inductive Network
  | mainnet
  | testnet
  | stagenet
deriving DecidableEq

/-- Priority level for transaction fee estimation (transaction.rs, `Priority`). -/
inductive Priority
  | default
  | low
  | medium
  | high
deriving DecidableEq

/-- A destination for an outgoing transfer (transaction.rs, `Destination`). -/
structure Destination where
  address : String
  amount : Nat
deriving DecidableEq

/-- Wallet RPC response to `transfer` (transaction.rs, `TransferResponse`). -/
structure TransferResponse where
  tx_hash : String
  fee : Nat
  multisig_txset : String
deriving DecidableEq

/-- Wallet RPC response to `sign_multisig` (transaction.rs, `SignMultisigResponse`). -/
structure SignMultisigResponse where
  tx_hash_list : List String
  tx_data_hex : String
deriving DecidableEq

/-- Wallet RPC response to `submit_multisig` (transaction.rs, `SubmitMultisigResponse`). -/
structure SubmitMultisigResponse where
  tx_hash_list : List String
deriving DecidableEq

/-- An unsigned multisig transaction awaiting co-signatures (transaction.rs). -/
structure UnsignedMultisigTx where
  tx_data_hex : String
  tx_hash : String
  fee : Nat
deriving DecidableEq

/-- A partially signed multisig transaction (transaction.rs, `PartiallySignedTx`). -/
structure PartiallySignedTx where
  tx_data_hex : String
  tx_hash : String
  signatures_count : Nat
  signatures_required : Nat
deriving DecidableEq

/-- The result of submitting a fully signed transaction (transaction.rs, `SubmitResult`). -/
structure SubmitResult where
  tx_hash : String
deriving DecidableEq

/-- Embeds `build_unsigned_tx` (transaction.rs lines 112-145): forward the
destinations and priority to the `transfer` RPC and repackage the response.
The Gateway outcome is the `gw` parameter; a transport or RPC failure is
propagated as an error. -/
def build_unsigned_tx (gw : Except String TransferResponse) :
    Except String UnsignedMultisigTx :=
  match gw with
  | .error e => .error e
  | .ok resp =>
    .ok { tx_data_hex := resp.multisig_txset, tx_hash := resp.tx_hash, fee := resp.fee }

/-- Embeds `sign_multisig_tx` (transaction.rs lines 152-178): forward the blob
to the `sign_multisig` RPC; take the first entry of `tx_hash_list` (empty
string when the list is empty, as `next().unwrap_or_default()` does) and
return hard-coded signature counters of zero, as the source does
("actual count tracked externally"). -/
def sign_multisig_tx (gw : Except String SignMultisigResponse) :
    Except String PartiallySignedTx :=
  match gw with
  | .error e => .error e
  | .ok resp =>
    .ok { tx_data_hex := resp.tx_data_hex
          tx_hash := resp.tx_hash_list.head?.getD ""
          signatures_count := 0
          signatures_required := 0 }

/-- Embeds `submit_multisig_tx` (transaction.rs lines 181-202): forward the
blob to the `submit_multisig` RPC and take the first hash of the list, or the
empty string when the list is empty. -/
def submit_multisig_tx (gw : Except String SubmitMultisigResponse) :
    Except String SubmitResult :=
  match gw with
  | .error e => .error e
  | .ok resp => .ok { tx_hash := resp.tx_hash_list.head?.getD "" }

/-- Embeds `validate_address` (transaction.rs lines 244-261): the address must
start with the network digit (4 on mainnet, 9 on testnet and stagenet) and
have total length 95 or 106.  The two formatted `ensure!` messages are
modelled by fixed strings. -/
def validate_address (address : String) (network : Network) : Except String Unit :=
  let first : Char :=
    match network with
    | .mainnet => '4'
    | .testnet => '9'
    | .stagenet => '9'
  if address.data.head? = some first then
    if address.length = 95 ∨ address.length = 106 then .ok ()
    else .error "invalid address length"
  else .error "address starts with the wrong network digit"

/-- Modelled from the spec: `MultisigParams` of the absent `wallet.rs`
(spec section 3), with the fields used by `main.rs` (threshold, total, label). -/
structure MultisigParams where
  threshold : Nat
  total : Nat
  label : String
deriving DecidableEq

/-- Modelled from the spec: `MultisigParams::new` of the absent `wallet.rs`,
enforcing the section 3 invariant 1 ≤ M ≤ N and N ≥ 2, failing with the
InvalidParams error otherwise. -/
def multisigParamsNew (threshold total : Nat) (label : String) :
    Except String MultisigParams :=
  if 1 ≤ threshold ∧ threshold ≤ total ∧ 2 ≤ total then
    .ok { threshold := threshold, total := total, label := label }
  else .error "invalid multisig parameters"

/-- Modelled from the spec: the `WalletState` tagged union of the absent
`wallet.rs` (spec section 3); all three variants and their fields are
destructured in `main.rs`. -/
inductive WalletState
  | created (wallet_path : String) (params : MultisigParams)
  | keyExchangeInProgress (wallet_path : String) (params : MultisigParams) (round : Nat)
  | ready (wallet_path : String) (address : String) (params : MultisigParams)
deriving DecidableEq

/-- Modelled from the spec: the `KeyExchangeResult` union of the absent
`wallet.rs` (spec section 3); both variants are destructured in `main.rs`
(`Partial` carrying next_info, `Complete` carrying the address). -/
inductive KeyExchangeResult
  | partialRound (next_info : String)
  | complete (address : String)
deriving DecidableEq

/-- Observable outcome of one CLI invocation: the process result, the content
of the persisted wallet-state record after the run, whether a Gateway RPC was
issued, and the sequence of state-store saves.  The store is modelled from
the spec (section 4.4): `save` overwrites the single record of the data
directory, `load` fails when no record exists. -/
structure ExchangeRun where
  result : Except String Unit
  stored : Option WalletState
  gatewayCalled : Bool
  saves : List WalletState

/-- Observable outcome of one transaction-command invocation, carrying the
typed command result. -/
structure TxRun (α : Type) where
  result : Except String α
  stored : Option WalletState
  gatewayCalled : Bool
  saves : List WalletState

/-- Embeds the CreateWallet branch of `main` (main.rs lines 120-141): validate
the parameters, call `prepare_multisig` on the Gateway, then save a fresh
`Created` record.  The branch performs no check for an existing record: the
save overwrites whatever `stored` held. -/
def runCreateWallet (dataDir : String) (stored : Option WalletState)
    (threshold total : Nat) (label : String)
    (gwPrepare : Except String String) : ExchangeRun :=
  match multisigParamsNew threshold total label with
  | .error e => { result := .error e, stored := stored, gatewayCalled := false, saves := [] }
  | .ok params =>
    match gwPrepare with
    | .error e => { result := .error e, stored := stored, gatewayCalled := true, saves := [] }
    | .ok _info =>
      let st := WalletState.created (dataDir ++ "/wallet") params
      { result := .ok (), stored := some st, gatewayCalled := true, saves := [st] }

/-- Common tail of the ExchangeKeys branch after a successful state load from
`Created` or `KeyExchangeInProgress` (main.rs lines 155-179): call
`wallet::exchange_keys` on the Gateway; on `Partial` only print the next blob
(no save is performed); on `Complete` save a `Ready` record; on a Gateway
error propagate it without saving. -/
def runExchangeAfterLoad (dataDir : String) (stored : Option WalletState)
    (params : MultisigParams)
    (gwExchange : Except String KeyExchangeResult) : ExchangeRun :=
  match gwExchange with
  | .error e => { result := .error e, stored := stored, gatewayCalled := true, saves := [] }
  | .ok (.partialRound _next) =>
    { result := .ok (), stored := stored, gatewayCalled := true, saves := [] }
  | .ok (.complete address) =>
    let st := WalletState.ready (dataDir ++ "/wallet") address params
    { result := .ok (), stored := some st, gatewayCalled := true, saves := [st] }

/-- Embeds the ExchangeKeys branch of `main` (main.rs lines 143-180): load the
state (failing when no record exists), bail out with "wallet is already fully
set up" when the state is `Ready`, otherwise run one exchange round.  The peer
info blobs and the password are forwarded to the Gateway and are otherwise
unused by the branch. -/
def runExchangeKeys (dataDir : String) (stored : Option WalletState)
    (_info : List String) (_password : String)
    (gwExchange : Except String KeyExchangeResult) : ExchangeRun :=
  match stored with
  | none =>
    { result := .error "load wallet state", stored := none, gatewayCalled := false, saves := [] }
  | some st =>
    match st with
    | .ready _ _ _ =>
      { result := .error "wallet is already fully set up", stored := some st,
        gatewayCalled := false, saves := [] }
    | .created _ params => runExchangeAfterLoad dataDir (some st) params gwExchange
    | .keyExchangeInProgress _ params _ => runExchangeAfterLoad dataDir (some st) params gwExchange

/-- Embeds the priority mapping of the BuildTx branch (main.rs lines 198-203):
1, 2 and 3 map to Low, Medium and High; every other value maps to Default. -/
def priorityFromU32 : Nat → Priority
  | 1 => .low
  | 2 => .medium
  | 3 => .high
  | _ => .default

/-- Embeds the BuildTx branch of `main` (main.rs lines 193-215): map the
priority, build the one-destination list, and call `build_unsigned_tx` (the
`transfer` RPC).  The branch never loads the wallet state (the `stored`
parameter is not consulted) and never calls `validate_address`. -/
def runBuildTx (stored : Option WalletState) (address : String) (amount : Nat)
    (priorityRaw : Nat) (gwTransfer : Except String TransferResponse) :
    TxRun UnsignedMultisigTx :=
  let _priority := priorityFromU32 priorityRaw
  let _destinations := [Destination.mk address amount]
  { result := build_unsigned_tx gwTransfer, stored := stored, gatewayCalled := true, saves := [] }

/-- Embeds the SignTx branch of `main` (main.rs lines 217-225): call
`sign_multisig_tx` directly; the wallet state is never loaded or checked. -/
def runSignTx (stored : Option WalletState) (_txData : String)
    (gwSign : Except String SignMultisigResponse) : TxRun PartiallySignedTx :=
  { result := sign_multisig_tx gwSign, stored := stored, gatewayCalled := true, saves := [] }

/-- Embeds the SubmitTx branch of `main` (main.rs lines 227-233): call
`submit_multisig_tx` directly; the wallet state is never loaded or checked. -/
def runSubmitTx (stored : Option WalletState) (_txData : String)
    (gwSubmit : Except String SubmitMultisigResponse) : TxRun SubmitResult :=
  { result := submit_multisig_tx gwSubmit, stored := stored, gatewayCalled := true, saves := [] }

/-- Little-endian base-10 digits of `n`, with explicit fuel so the function is
structurally recursive; `fuel` bounds the number of digits. -/
def toDigitsRevAux : Nat → Nat → List Nat
  | 0, _ => []
  | fuel + 1, n => if n = 0 then [] else n % 10 :: toDigitsRevAux fuel (n / 10)

/-- Value of a little-endian base-10 digit list. -/
def ofDigitsRev : List Nat → Nat
  | [] => 0
  | d :: ds => d + 10 * ofDigitsRev ds

/-- Decimal rendering of a natural number as a character list, mirroring the
decimal `Display` formatting used by `format_xmr` in the source; fuel 20
covers every value below 10^20, in particular the whole u64 range. -/
def natToDecChars (n : Nat) : List Char :=
  if n = 0 then ['0']
  else (toDigitsRevAux 20 n).reverse.map (fun d => Char.ofNat (48 + d))

/-- Left-pad a digit string with zeros to width 12, mirroring the `{frac:012}`
format directive of `format_xmr`. -/
def padZeros12 (l : List Char) : List Char :=
  List.replicate (12 - l.length) '0' ++ l

/-- Embeds `format_xmr` (transaction.rs lines 205-209): whole-XMR part, a dot,
and the remainder modulo 10^12 zero-padded to 12 digits. -/
def format_xmr (piconero : Nat) : String :=
  String.mk (natToDecChars (piconero / 1000000000000) ++
    '.' :: padZeros12 (natToDecChars (piconero % 1000000000000)))

/-- One step of decimal parsing: shift the accumulator and add the digit value
of the character. -/
def parseStep (a : Nat) (c : Char) : Nat := 10 * a + (c.toNat - 48)

/-- Strict decimal parse of a character list: fails on an empty list or on any
non-digit character. -/
def parseDecChars (l : List Char) : Option Nat :=
  if l ≠ [] ∧ l.all Char.isDigit then some (l.foldl parseStep 0) else none

/-- Split a character list at the first dot, failing when no dot occurs. -/
def splitAtDot : List Char → Option (List Char × List Char)
  | [] => none
  | c :: rest =>
    if c = '.' then some ([], rest)
    else (splitAtDot rest).map (fun p => (c :: p.1, p.2))

/-- Parse a formatted XMR amount back into piconero: split at the dot, parse
both sides as strict decimal numbers, and return whole * 10^12 + fraction. -/
def parseXmrChars (l : List Char) : Option Nat :=
  (splitAtDot l).bind (fun wf =>
    (parseDecChars wf.1).bind (fun wn =>
      (parseDecChars wf.2).map (fun fn => wn * 1000000000000 + fn)))

/-- Parse a formatted XMR amount string back into piconero. -/
def parseXmr (s : String) : Option Nat := parseXmrChars s.data

theorem ofDigitsRev_toDigitsRevAux (fuel : Nat) :
    ∀ n : Nat, n < 10 ^ fuel → ofDigitsRev (toDigitsRevAux fuel n) = n := by
  induction fuel with
  | zero =>
    intro n hn
    simp only [pow_zero] at hn
    have hn0 : n = 0 := by omega
    subst hn0
    rfl
  | succ fuel ih =>
    intro n hn
    by_cases h0 : n = 0
    · subst h0; simp [toDigitsRevAux, ofDigitsRev]
    · have hdiv : n / 10 < 10 ^ fuel := by
        rw [Nat.div_lt_iff_lt_mul (by norm_num)]
        calc n < 10 ^ (fuel + 1) := hn
          _ = 10 ^ fuel * 10 := by ring
      simp only [toDigitsRevAux, h0, if_false, ofDigitsRev, ih _ hdiv]
      omega

theorem toDigitsRevAux_lt_ten (fuel : Nat) :
    ∀ n d : Nat, d ∈ toDigitsRevAux fuel n → d < 10 := by
  induction fuel with
  | zero => intro n d hd; simp [toDigitsRevAux] at hd
  | succ fuel ih =>
    intro n d hd
    by_cases h0 : n = 0
    · subst h0; simp [toDigitsRevAux] at hd
    · simp only [toDigitsRevAux, h0, if_false, List.mem_cons] at hd
      rcases hd with h | h
      · subst h; omega
      · exact ih _ _ h

theorem toDigitsRevAux_length (fuel : Nat) :
    ∀ n k : Nat, n < 10 ^ k → (toDigitsRevAux fuel n).length ≤ k := by
  induction fuel with
  | zero => intro n k _; simp [toDigitsRevAux]
  | succ fuel ih =>
    intro n k hn
    by_cases h0 : n = 0
    · subst h0; simp [toDigitsRevAux]
    · cases k with
      | zero =>
        simp only [pow_zero] at hn
        omega
      | succ k =>
        have hdiv : n / 10 < 10 ^ k := by
          rw [Nat.div_lt_iff_lt_mul (by norm_num)]
          calc n < 10 ^ (k + 1) := hn
            _ = 10 ^ k * 10 := by ring
        simp only [toDigitsRevAux, h0, if_false, List.length_cons]
        have := ih (n / 10) k hdiv
        omega

theorem toDigitsRevAux_ne_nil (fuel n : Nat) (h0 : n ≠ 0) (hf : 0 < fuel) :
    toDigitsRevAux fuel n ≠ [] := by
  cases fuel with
  | zero => omega
  | succ fuel => simp [toDigitsRevAux, h0]

theorem parseStep_digitChar (d : Nat) (hd : d < 10) :
    ∀ a : Nat, parseStep a (Char.ofNat (48 + d)) = 10 * a + d := by
  intro a
  have hval : (Char.ofNat (48 + d)).toNat - 48 = d := by
    interval_cases d <;> decide
  simp [parseStep, hval]

theorem isDigit_digitChar (d : Nat) (hd : d < 10) :
    (Char.ofNat (48 + d)).isDigit = true := by
  interval_cases d <;> decide

theorem natToDecChars_ne_nil (n : Nat) : natToDecChars n ≠ [] := by
  unfold natToDecChars
  by_cases h0 : n = 0
  · simp [h0]
  · simp only [h0, if_false, ne_eq, List.map_eq_nil_iff, List.reverse_eq_nil_iff]
    exact toDigitsRevAux_ne_nil 20 n h0 (by norm_num)

theorem natToDecChars_isDigit (n : Nat) :
    ∀ c ∈ natToDecChars n, c.isDigit = true := by
  intro c hc
  unfold natToDecChars at hc
  by_cases h0 : n = 0
  · simp [h0] at hc
    subst hc; decide
  · simp only [h0, if_false, List.mem_map, List.mem_reverse] at hc
    obtain ⟨d, hd, rfl⟩ := hc
    exact isDigit_digitChar d (toDigitsRevAux_lt_ten 20 n d hd)

theorem natToDecChars_no_dot (n : Nat) : '.' ∉ natToDecChars n := by
  intro h
  have := natToDecChars_isDigit n '.' h
  simp at this

theorem foldl_digits (ds : List Nat) :
    ∀ a : Nat, (∀ d ∈ ds, d < 10) →
      List.foldl parseStep a (ds.reverse.map (fun d => Char.ofNat (48 + d))) =
        a * 10 ^ ds.length + ofDigitsRev ds := by
  induction ds with
  | nil => intro a _; simp [ofDigitsRev]
  | cons d ds ih =>
    intro a h
    have hd : d < 10 := h d (by simp)
    have hds : ∀ x ∈ ds, x < 10 := fun x hx => h x (by simp [hx])
    simp only [List.reverse_cons, List.map_append, List.map_cons, List.map_nil,
      List.foldl_append, List.foldl_cons, List.foldl_nil, ih a hds,
      parseStep_digitChar d hd, List.length_cons, ofDigitsRev]
    ring

theorem parseFold_natToDecChars (n : Nat) (hn : n < 10 ^ 20) :
    List.foldl parseStep 0 (natToDecChars n) = n := by
  unfold natToDecChars
  by_cases h0 : n = 0
  · subst h0; decide
  · simp only [h0, if_false]
    rw [foldl_digits _ 0 (toDigitsRevAux_lt_ten 20 n)]
    rw [ofDigitsRev_toDigitsRevAux 20 n hn]
    ring

theorem parseFold_pad (k : Nat) (l : List Char) :
    List.foldl parseStep 0 (List.replicate k '0' ++ l) = List.foldl parseStep 0 l := by
  induction k with
  | zero => simp
  | succ k ih =>
    simp only [List.replicate_succ, List.cons_append, List.foldl_cons]
    rw [show parseStep 0 '0' = 0 from rfl]
    exact ih

theorem splitAtDot_append (w f : List Char) (hw : '.' ∉ w) :
    splitAtDot (w ++ '.' :: f) = some (w, f) := by
  induction w with
  | nil => simp [splitAtDot]
  | cons c w ih =>
    have hc : ¬(c = '.') := by intro h; exact hw (by simp [h])
    have hw2 : '.' ∉ w := fun h => hw (by simp [h])
    simp [splitAtDot, hc, ih hw2]

theorem parseDecChars_eq (l : List Char) (h1 : l ≠ [])
    (h2 : ∀ c ∈ l, c.isDigit = true) :
    parseDecChars l = some (List.foldl parseStep 0 l) := by
  unfold parseDecChars
  rw [if_pos]
  exact ⟨h1, by rw [List.all_eq_true]; exact h2⟩

theorem natToDecChars_length_le (n k : Nat) (h1 : n < 10 ^ k) (h2 : 1 ≤ k) :
    (natToDecChars n).length ≤ k := by
  unfold natToDecChars
  by_cases h0 : n = 0
  · simp [h0]; omega
  · simp only [h0, if_false, List.length_map, List.length_reverse]
    exact toDigitsRevAux_length 20 n k h1

theorem padZeros12_length (l : List Char) (h : l.length ≤ 12) :
    (padZeros12 l).length = 12 := by
  simp [padZeros12]
  omega

theorem format_parts (p : Nat) (hp : p < 2 ^ 64) :
    parseDecChars (natToDecChars (p / 1000000000000)) = some (p / 1000000000000) ∧
    parseDecChars (padZeros12 (natToDecChars (p % 1000000000000))) =
      some (p % 1000000000000) ∧
    (padZeros12 (natToDecChars (p % 1000000000000))).length = 12 := by
  have hp20 : p < 10 ^ 20 := lt_of_lt_of_le hp (by norm_num)
  have hwhole : p / 1000000000000 < 10 ^ 20 :=
    lt_of_le_of_lt (Nat.div_le_self p 1000000000000) hp20
  have hfrac12 : p % 1000000000000 < 10 ^ 12 := by
    have := Nat.mod_lt p (show 0 < 1000000000000 by norm_num)
    calc p % 1000000000000 < 1000000000000 := this
      _ ≤ 10 ^ 12 := by norm_num
  have hfrac20 : p % 1000000000000 < 10 ^ 20 :=
    lt_of_lt_of_le hfrac12 (by norm_num)
  have hfraclen : (natToDecChars (p % 1000000000000)).length ≤ 12 :=
    natToDecChars_length_le _ 12 hfrac12 (by norm_num)
  refine ⟨?_, ?_, padZeros12_length _ hfraclen⟩
  · rw [parseDecChars_eq _ (natToDecChars_ne_nil _) (natToDecChars_isDigit _)]
    rw [parseFold_natToDecChars _ hwhole]
  · have hne : padZeros12 (natToDecChars (p % 1000000000000)) ≠ [] := by
      unfold padZeros12
      intro h
      rw [List.append_eq_nil] at h
      exact natToDecChars_ne_nil _ h.2
    have hdig : ∀ c ∈ padZeros12 (natToDecChars (p % 1000000000000)), c.isDigit = true := by
      intro c hc
      unfold padZeros12 at hc
      rw [List.mem_append] at hc
      rcases hc with hc | hc
      · have := List.eq_of_mem_replicate hc
        subst this; decide
      · exact natToDecChars_isDigit _ c hc
    rw [parseDecChars_eq _ hne hdig]
    unfold padZeros12
    rw [parseFold_pad, parseFold_natToDecChars _ hfrac20]

theorem parseXmr_format_xmr (p : Nat) (hp : p < 2 ^ 64) :
    parseXmr (format_xmr p) = some p := by
  obtain ⟨hw, hf, _⟩ := format_parts p hp
  show parseXmrChars (natToDecChars (p / 1000000000000) ++
    '.' :: padZeros12 (natToDecChars (p % 1000000000000))) = some p
  unfold parseXmrChars
  rw [splitAtDot_append _ _ (natToDecChars_no_dot _)]
  simp only [Option.bind, hw, hf, Option.map]
  have : p / 1000000000000 * 1000000000000 + p % 1000000000000 = p := by omega
  rw [this]

/-- C1: the claim states that sign-tx returns a signature count reflecting the
actually applied co-signatures, reports readiness exactly at the threshold,
and errors when the count cannot be determined.  The code instead returns
`signatures_count = 0` and `signatures_required = 0` for every successful
Gateway response, carries no readiness flag at all, and never turns an
undeterminable count into an error; the theorem evaluates the code on an
arbitrary response and on the concrete failing input. -/
theorem c1_sign_always_reports_zero_signatures :
    (∀ (hl : List String) (d : String),
      sign_multisig_tx (.ok { tx_hash_list := hl, tx_data_hex := d }) =
        .ok { tx_data_hex := d, tx_hash := hl.head?.getD "",
              signatures_count := 0, signatures_required := 0 }) ∧
    sign_multisig_tx (.ok { tx_hash_list := ["abc"], tx_data_hex := "beef" }) =
      .ok { tx_data_hex := "beef", tx_hash := "abc",
            signatures_count := 0, signatures_required := 0 } :=
  ⟨fun _ _ => rfl, rfl⟩

/-- C2: the claim states that a `Partial` Gateway outcome persists
`KeyExchangeInProgress` with the round incremented.  The code saves nothing on
the `Partial` path: starting from `Created`, the stored record is still the
original `Created` record afterwards and the saves list is empty, while the
`Complete` half of the claim does hold (a `Ready` record is saved). -/
theorem c2_partial_outcome_not_persisted :
    (runExchangeKeys "/data" (some (.created "/data/wallet" ⟨2, 3, "test"⟩))
        ["b1", "b2"] "" (.ok (.partialRound "next"))).result = .ok () ∧
    (runExchangeKeys "/data" (some (.created "/data/wallet" ⟨2, 3, "test"⟩))
        ["b1", "b2"] "" (.ok (.partialRound "next"))).stored =
      some (.created "/data/wallet" ⟨2, 3, "test"⟩) ∧
    (runExchangeKeys "/data" (some (.created "/data/wallet" ⟨2, 3, "test"⟩))
        ["b1", "b2"] "" (.ok (.partialRound "next"))).saves = [] ∧
    (runExchangeKeys "/data" (some (.created "/data/wallet" ⟨2, 3, "test"⟩))
        ["b1", "b2"] "" (.ok (.complete "44addr"))).stored =
      some (.ready "/data/wallet" "44addr" ⟨2, 3, "test"⟩) :=
  ⟨rfl, rfl, rfl, rfl⟩

/-- C3: the claim states that build-tx, sign-tx and submit-tx fail with
`NotReady` before any Gateway call unless the stored state is `Ready`.  The
code never consults the stored state: each operation's outcome is identical
for any two stored states, and with a `Created` record each operation still
issues its Gateway call and succeeds. -/
theorem c3_tx_ops_do_not_check_state :
    (∀ (s₁ s₂ : Option WalletState) (a : String) (x pr : Nat)
        (gw : Except String TransferResponse),
      (runBuildTx s₁ a x pr gw).result = (runBuildTx s₂ a x pr gw).result) ∧
    (∀ (s₁ s₂ : Option WalletState) (d : String)
        (gw : Except String SignMultisigResponse),
      (runSignTx s₁ d gw).result = (runSignTx s₂ d gw).result) ∧
    (∀ (s₁ s₂ : Option WalletState) (d : String)
        (gw : Except String SubmitMultisigResponse),
      (runSubmitTx s₁ d gw).result = (runSubmitTx s₂ d gw).result) ∧
    (runBuildTx (some (.created "/data/wallet" ⟨2, 3, "test"⟩)) "addr" 5 0
        (.ok ⟨"h", 1, "set"⟩)).gatewayCalled = true ∧
    (runBuildTx (some (.created "/data/wallet" ⟨2, 3, "test"⟩)) "addr" 5 0
        (.ok ⟨"h", 1, "set"⟩)).result = .ok ⟨"set", "h", 1⟩ ∧
    (runSignTx (some (.created "/data/wallet" ⟨2, 3, "test"⟩)) "beef"
        (.ok ⟨["h"], "d"⟩)).gatewayCalled = true ∧
    (runSignTx (some (.created "/data/wallet" ⟨2, 3, "test"⟩)) "beef"
        (.ok ⟨["h"], "d"⟩)).result = .ok ⟨"d", "h", 0, 0⟩ ∧
    (runSubmitTx (some (.created "/data/wallet" ⟨2, 3, "test"⟩)) "beef"
        (.ok ⟨["h"]⟩)).gatewayCalled = true ∧
    (runSubmitTx (some (.created "/data/wallet" ⟨2, 3, "test"⟩)) "beef"
        (.ok ⟨["h"]⟩)).result = .ok ⟨"h"⟩ :=
  ⟨fun _ _ _ _ _ _ => rfl, fun _ _ _ _ => rfl, fun _ _ _ _ => rfl,
    rfl, rfl, rfl, rfl, rfl, rfl⟩

/-- C4: the claim states that create-wallet fails with `AlreadyExists` when a
record already exists and leaves it unchanged.  The code performs no existence
check: with an existing `Created` record in the directory, a second
create-wallet succeeds, saves a fresh `Created` record, and the stored record
afterwards differs from the original. -/
theorem c4_create_wallet_overwrites_existing_record :
    (runCreateWallet "/data" (some (.created "/data/wallet" ⟨2, 2, "orig"⟩))
        2 3 "test" (.ok "INFO")).result = .ok () ∧
    (runCreateWallet "/data" (some (.created "/data/wallet" ⟨2, 2, "orig"⟩))
        2 3 "test" (.ok "INFO")).saves =
      [.created "/data/wallet" ⟨2, 3, "test"⟩] ∧
    (runCreateWallet "/data" (some (.created "/data/wallet" ⟨2, 2, "orig"⟩))
        2 3 "test" (.ok "INFO")).stored =
      some (.created "/data/wallet" ⟨2, 3, "test"⟩) ∧
    (runCreateWallet "/data" (some (.created "/data/wallet" ⟨2, 2, "orig"⟩))
        2 3 "test" (.ok "INFO")).stored ≠
      some (.created "/data/wallet" ⟨2, 2, "orig"⟩) := by
  refine ⟨rfl, rfl, rfl, ?_⟩
  decide

/-- C5: the claim states that the destination address is validated before the
transfer RPC and that an invalid address causes failure with no Gateway
round-trip.  `validate_address` does reject the sample address, but the
BuildTx branch never invokes it: with the invalid address "bogus" the Gateway
transfer call is still issued and the operation succeeds. -/
theorem c5_build_tx_attempts_gateway_on_invalid_address :
    validate_address "bogus" Network.mainnet =
      .error "address starts with the wrong network digit" ∧
    (runBuildTx (some (.ready "/data/wallet" "addr" ⟨2, 3, "t"⟩)) "bogus" 5 0
        (.ok ⟨"h", 1, "set"⟩)).gatewayCalled = true ∧
    (runBuildTx (some (.ready "/data/wallet" "addr" ⟨2, 3, "t"⟩)) "bogus" 5 0
        (.ok ⟨"h", 1, "set"⟩)).result = .ok ⟨"set", "h", 1⟩ := by
  refine ⟨?_, rfl, rfl⟩
  rfl

/-- C6: invoking exchange-keys while the persisted state is `Ready` always
fails with the "wallet is already fully set up" error, issues no Gateway call,
performs no save, and leaves the stored state unchanged, for every path,
address, parameter record, peer-blob list, password and Gateway behavior. -/
theorem c6_exchange_keys_fails_from_ready (dataDir path addr : String)
    (params : MultisigParams) (info : List String) (password : String)
    (gw : Except String KeyExchangeResult) :
    runExchangeKeys dataDir (some (.ready path addr params)) info password gw =
      { result := .error "wallet is already fully set up",
        stored := some (.ready path addr params),
        gatewayCalled := false, saves := [] } :=
  rfl

/-- C7: when the Gateway call of an exchange-keys invocation fails, the
persisted state is left unchanged at its previous value and no state-store
save is invoked, for every starting state. -/
theorem c7_gateway_failure_leaves_state_unchanged (dataDir : String)
    (stored : Option WalletState) (info : List String) (password : String)
    (e : String) :
    (runExchangeKeys dataDir stored info password (.error e)).stored = stored ∧
    (runExchangeKeys dataDir stored info password (.error e)).saves = [] := by
  cases stored with
  | none => exact ⟨rfl, rfl⟩
  | some st => cases st <;> exact ⟨rfl, rfl⟩

/-- C8: `format_xmr` renders an amount as the whole-XMR part, a dot, and the
remainder zero-padded to exactly 12 digits; the three documented examples
hold, and for every u64 value the produced string parses back to the original
amount as whole * 10^12 + fraction. -/
theorem c8_format_xmr_round_trip :
    (∀ p : Nat, p < 2 ^ 64 → parseXmr (format_xmr p) = some p) ∧
    (∀ p : Nat, p < 2 ^ 64 → ∃ w fr : List Char,
        (format_xmr p).data = w ++ '.' :: fr ∧ fr.length = 12 ∧
        parseDecChars w = some (p / 1000000000000) ∧
        parseDecChars fr = some (p % 1000000000000)) ∧
    format_xmr 1000000000000 = "1.000000000000" ∧
    format_xmr 1500000000 = "0.001500000000" ∧
    format_xmr 0 = "0.000000000000" := by
  refine ⟨parseXmr_format_xmr, ?_, by decide, by decide, by decide⟩
  intro p hp
  obtain ⟨hw, hf, hlen⟩ := format_parts p hp
  exact ⟨natToDecChars (p / 1000000000000),
    padZeros12 (natToDecChars (p % 1000000000000)), rfl, hlen, hw, hf⟩

/-- Witness for C8: the round-trip theorem applied at the concrete amount
1500000000. -/
theorem c8_format_xmr_round_trip_witness :
    parseXmr (format_xmr 1500000000) = some 1500000000 :=
  c8_format_xmr_round_trip.1 1500000000 (by norm_num)

/-- C9: a Gateway response with an empty `tx_hash_list` still makes sign-tx
and submit-tx succeed, with an empty-string transaction hash, for every
transaction-data payload. -/
theorem c9_empty_tx_hash_list_yields_empty_hash (d : String) :
    sign_multisig_tx (.ok { tx_hash_list := [], tx_data_hex := d }) =
      .ok { tx_data_hex := d, tx_hash := "",
            signatures_count := 0, signatures_required := 0 } ∧
    submit_multisig_tx (.ok { tx_hash_list := [] }) = .ok { tx_hash := "" } :=
  ⟨rfl, rfl⟩

/-- C10: the priority value maps to Low, Medium or High exactly when it equals
1, 2 or 3, and every other u32 value maps to Default; the mapping is a total
function, so no value is ever rejected. -/
theorem c10_priority_mapping (p : Nat) (hp : p < 2 ^ 32) :
    (priorityFromU32 p = .low ↔ p = 1) ∧
    (priorityFromU32 p = .medium ↔ p = 2) ∧
    (priorityFromU32 p = .high ↔ p = 3) ∧
    (priorityFromU32 p = .default ↔ p ≠ 1 ∧ p ≠ 2 ∧ p ≠ 3) := by
  match p with
  | 0 => exact ⟨by decide, by decide, by decide, by decide⟩
  | 1 => exact ⟨by decide, by decide, by decide, by decide⟩
  | 2 => exact ⟨by decide, by decide, by decide, by decide⟩
  | 3 => exact ⟨by decide, by decide, by decide, by decide⟩
  | n + 4 =>
    refine ⟨?_, ?_, ?_, ?_⟩ <;> simp [priorityFromU32]

/-- Witness for C10: the mapping theorem applied at the concrete value 7,
which falls to the Default priority. -/
theorem c10_priority_mapping_witness :
    priorityFromU32 7 = .default ↔ 7 ≠ 1 ∧ 7 ≠ 2 ∧ 7 ≠ 3 :=
  (c10_priority_mapping 7 (by norm_num)).2.2.2

end MoneroMultisig
